import Mathlib

/-!
Verification of the session and device-state synchronization layer of the
mi-music repository (frontend). The definitions below are shallow embeddings
of the TypeScript source:

* the axios instance with its request and response interceptors
  (frontend utils http, in PlayerControls.tsx lines 284-381 of the bundled
  source): token attachment, 401 handling, token refresh, retry;
* the AppState provider (same file, lines 598-820): updateStatusByDevices,
  fetchDevices with in-flight dedup and content hash, selectDevice,
  getDeviceSelector;
* authService.logout (unnamed part 007), the useAuth logout
  (unnamed part 004) and handleLogout of MainLayout.tsx.

localStorage is modelled as explicit record fields holding Option values
(none stands for an absent key). JavaScript string truthiness (undefined,
null and the empty string are falsy) is modelled by the predicate truthy.
-/

namespace MiMusic

/-! ## Credential store (localStorage keys accessToken, refreshToken, user) -/

structure Storage where
  accessToken : Option String
  refreshToken : Option String
  user : Option String
  deriving DecidableEq, Repr

/-- JavaScript truthiness of a possibly absent string: getItem returns null
for a missing key, and both null and the empty string are falsy. -/
def truthy : Option String → Bool
  | none => false
  | some s => decide (s ≠ "")

/-! ## HTTP layer: request interceptor, response error interceptor -/

/-- Body of the response of POST /auth/refresh, as read by the interceptor:
response.data.success, response.data.access_token, response.data.refresh_token
(the token fields are optional in TokenRefreshResponse). -/
structure RefreshResponse where
  success : Bool
  access_token : Option String
  refresh_token : Option String
  deriving DecidableEq, Repr

/-- Classification of the settled backend response of one network attempt:
a success, a 401 (error.response.status === 401), or any other failure
(other HTTP errors and network errors alike, which the interceptor passes
through unchanged). -/
inductive RespStatus where
  | ok
  | unauthorized
  | otherError
  deriving DecidableEq, Repr

/-- The mutable per-request config: the _retry marker set by the error
interceptor and the Authorization header. -/
structure ReqConfig where
  retryFlag : Bool
  authHeader : Option String
  deriving DecidableEq, Repr

/-- An axios error as seen by the response error interceptor: the status of
the failed response and the config of the request that produced it. -/
structure HttpError where
  status : RespStatus
  config : ReqConfig
  deriving DecidableEq, Repr

/-- How the promise chain of one http call settles for the caller. -/
inductive Outcome where
  | resolved
  | rejected (e : HttpError)
  | rejectedRefreshError
  deriving DecidableEq, Repr

/-- Shared state threaded through the interceptor: the credential store,
a counter of POST /auth/refresh invocations, whether window.location was
pointed at /login, and the log of requests re-sent by the retry path. -/
structure SendState where
  store : Storage
  refreshCalls : Nat
  redirectedToLogin : Bool
  retriedSends : List ReqConfig
  deriving DecidableEq, Repr

/-- Environment: how the backend answers the refresh call (error is a
rejected promise), and how it answers the re-sent original request. -/
structure HttpEnv where
  refreshResult : Except Unit RefreshResponse
  retryStatus : RespStatus

/-- The request interceptor: reads accessToken from the store and, when it
is truthy, overwrites the Authorization header with a Bearer credential;
otherwise the config is forwarded unchanged. -/
def applyRequestInterceptor (store : Storage) (req : ReqConfig) : ReqConfig :=
  match store.accessToken with
  | some t => if t = "" then req else { req with authHeader := some ("Bearer " ++ t) }
  | none => req

/-- The response error interceptor (lines 315-360). On a 401 whose config
has not been retried: marks the config, reads refreshToken; when present,
POSTs /auth/refresh; on a refresh response reporting success with a truthy
access_token it persists the access token (and the refresh token when the
response carries a truthy one), rewrites the Authorization header and
re-sends the original request through the instance - a failure of that
re-sent request re-enters this interceptor (modelled by the recursive call,
with fuel bounding the depth; the retry marker makes depth 2 sufficient).
On a rejected refresh it removes accessToken, refreshToken and user,
redirects to /login and rejects with the refresh error. With no stored
refresh token it removes accessToken and user, redirects, and falls through
to reject the original error. Anything else rejects the incoming error. -/
def respErrorHandler (env : HttpEnv) : Nat → SendState → HttpError → SendState × Outcome
  | 0, s, e => (s, Outcome.rejected e)
  | fuel + 1, s, e =>
    if e.status = RespStatus.unauthorized ∧ e.config.retryFlag = false then
      let cfg : ReqConfig := { e.config with retryFlag := true }
      if truthy s.store.refreshToken then
        let s1 : SendState := { s with refreshCalls := s.refreshCalls + 1 }
        match env.refreshResult with
        | Except.ok resp =>
          if resp.success && truthy resp.access_token then
            let newAccess := resp.access_token.getD ""
            let store1 : Storage := { s1.store with accessToken := some newAccess }
            let store2 : Storage :=
              if truthy resp.refresh_token then { store1 with refreshToken := resp.refresh_token }
              else store1
            let cfg1 : ReqConfig := { cfg with authHeader := some ("Bearer " ++ newAccess) }
            let cfg2 : ReqConfig := applyRequestInterceptor store2 cfg1
            let s2 : SendState :=
              { s1 with store := store2, retriedSends := s1.retriedSends ++ [cfg2] }
            match env.retryStatus with
            | RespStatus.ok => (s2, Outcome.resolved)
            | st => respErrorHandler env fuel s2 { status := st, config := cfg2 }
          else
            (s1, Outcome.rejected e)
        | Except.error _ =>
          let s2 : SendState :=
            { s1 with
              store := { accessToken := none, refreshToken := none, user := none },
              redirectedToLogin := true }
          (s2, Outcome.rejectedRefreshError)
      else
        let s1 : SendState :=
          { s with
            store := { s.store with accessToken := none, user := none },
            redirectedToLogin := true }
        (s1, Outcome.rejected e)
    else
      (s, Outcome.rejected e)

/-- The interceptor is entered with recursion budget 2: the retry marker
prevents any deeper re-entry. -/
def handle401 (env : HttpEnv) (s : SendState) (e : HttpError) : SendState × Outcome :=
  respErrorHandler env 2 s e

/-! ## AppState provider: vendor status, device directory, selection -/

/-- XiaomiAccountStatus from types/api.ts; devices_count and user_id are
optional fields. -/
structure XiaomiAccountStatus where
  logged_in : Bool
  devices_count : Option Nat
  user_id : Option String
  deriving DecidableEq, Repr

/-- DeviceInfo from types/api.ts, restricted to the fields this layer
reads. The source field named alias is rendered here as deviceAlias
because alias is a reserved word in Lean. -/
structure DeviceInfo where
  deviceID : String
  name : Option String
  deviceAlias : Option String
  hardware : Option String
  deriving DecidableEq, Repr

/-- The tuple the device hash is built from: the source computes
JSON.stringify of list.map of [deviceID, alias, name, hardware], and that
encoding is injective on these tuples, so the hash is modelled as the list
of tuples itself; the initial hash, the empty string, is not the encoding
of any list and is modelled as none. -/
def projectDevice (d : DeviceInfo) : String × Option String × Option String × Option String :=
  (d.deviceID, d.deviceAlias, d.name, d.hardware)

/-- Body of the response of GET /devices as read by fetchDevices. An empty
array is truthy in JavaScript, so only an absent data field fails the
guard. -/
structure DevicesResponse where
  success : Bool
  data : Option (List DeviceInfo)
  deriving DecidableEq, Repr

/-- The provider state: React state plus the localStorage keys xiaomiStatus
and selectedDevice and the two refs guarding fetches. -/
structure AppState where
  xiaomiStatus : XiaomiAccountStatus
  storedXiaomiStatus : Option XiaomiAccountStatus
  devices : List DeviceInfo
  selectedDevice : Option DeviceInfo
  storedSelectedDevice : Option DeviceInfo
  devicesHash : Option (List (String × Option String × Option String × Option String))
  isFetchingDevices : Bool
  devicesLoading : Bool
  deriving DecidableEq, Repr

/-- updateStatusByDevices (lines 706-720): derives the next status from the
previous one by setting logged_in to devicesCount > 0 and devices_count to
devicesCount, keeping the other fields, and commits the state and the
localStorage copy only when logged_in or devices_count actually changed. -/
def updateStatusByDevices (devicesCount : Nat) (s : AppState) : AppState :=
  let prev := s.xiaomiStatus
  let next : XiaomiAccountStatus :=
    { prev with logged_in := decide (0 < devicesCount), devices_count := some devicesCount }
  if prev.logged_in ≠ next.logged_in ∨ prev.devices_count ≠ next.devices_count then
    { s with xiaomiStatus := next, storedXiaomiStatus := some next }
  else s

/-- The synchronous prefix of fetchDevices (lines 734-737): when the
in-flight ref is set the call returns at once (result false, state
untouched, no network call); otherwise it sets the ref and the loading
flag and issues the network call (result true). -/
def fetchDevicesStart (s : AppState) : AppState × Bool :=
  if s.isFetchingDevices then (s, false)
  else ({ s with isFetchingDevices := true, devicesLoading := true }, true)

/-- The selection repair of lines 749-754, run only for a non-empty list:
when there is no previous selection, or no device of the list carries the
previously selected deviceID, the first device is selected; otherwise the
previous selection is kept. -/
def repairSelection (list : List DeviceInfo) (prev : Option DeviceInfo) : Option DeviceInfo :=
  match prev with
  | none => list.head?
  | some p =>
    match list.find? (fun d => d.deviceID == p.deviceID) with
    | some _ => some p
    | none => list.head?

/-- The continuation of fetchDevices once the network call settled
(lines 739-775): on a response with success and a data array, the content
hash is compared with the stored one; only when it differs are the list,
the hash and the selection updated (clearing the selection for an empty
list); the vendor status is re-derived from the count in either case, and
the data array is returned. A response failing the guard, or a rejected
call, empties the stored list and hash and returns nothing. The finally
block clears the loading flag and the in-flight ref. -/
def fetchDevicesFinish (resp : Except Unit DevicesResponse) (s : AppState) :
    AppState × Option (List DeviceInfo) :=
  let step :=
    match resp with
    | Except.ok r =>
      match r.data with
      | some list =>
        if r.success then
          let newHash := list.map projectDevice
          if some newHash ≠ s.devicesHash then
            let s2 := { s with devicesHash := some newHash, devices := list }
            let s3 :=
              if list.isEmpty then { s2 with selectedDevice := none }
              else { s2 with selectedDevice := repairSelection list s2.selectedDevice }
            (updateStatusByDevices list.length s3, some list)
          else
            (updateStatusByDevices list.length s, some list)
        else
          ({ s with devices := [], devicesHash := none }, none)
      | none => ({ s with devices := [], devicesHash := none }, none)
    | Except.error _ => ({ s with devices := [], devicesHash := none }, none)
  ({ step.1 with devicesLoading := false, isFetchingDevices := false }, step.2)

/-- selectDevice (lines 778-781): sets the selection state and persists the
snapshot under the selectedDevice key. -/
def selectDevice (d : DeviceInfo) (s : AppState) : AppState :=
  { s with selectedDevice := some d, storedSelectedDevice := some d }

/-- The JavaScript string or-else: the left operand unless it is falsy
(the empty string). -/
def jsOrString (a b : String) : String := if a = "" then b else a

/-- The selector of one device: alias or-else name or-else deviceID, with
absent fields reading as the falsy undefined. -/
def selectorOf (d : DeviceInfo) : String :=
  jsOrString (d.deviceAlias.getD "") (jsOrString (d.name.getD "") d.deviceID)

/-- The nullish coalescing of the explicit argument with the current
selection: device or-else selectedDevice. -/
def targetOf (device selected : Option DeviceInfo) : Option DeviceInfo :=
  match device with
  | some d => some d
  | none => selected

/-- getDeviceSelector (lines 783-787): resolves the target device and
returns its selector, or the empty string when no target resolves. -/
def getDeviceSelector (device selected : Option DeviceInfo) : String :=
  match targetOf device selected with
  | none => ""
  | some d => selectorOf d

/-! ## Logout path: authService.logout, useAuth logout, handleLogout -/

/-- Response body of POST /mi/account/logout as read by the hook. -/
structure ApiResp where
  success : Bool
  deriving DecidableEq, Repr

/-- State visible to the logout flow of MainLayout: the credential store,
the vendor indicator of the useXiaomi hook, the authenticated flag of
useAuth and the route pushed on the history. -/
structure SessionState where
  store : Storage
  xiaomiStatus : XiaomiAccountStatus
  isAuthenticated : Bool
  route : Option String
  deriving DecidableEq, Repr

/-- authService.logout (unnamed part 007 lines 29-33): removes accessToken,
refreshToken and user from localStorage. -/
def authServiceLogout (st : Storage) : Storage :=
  { st with accessToken := none, refreshToken := none, user := none }

/-- The useAuth logout (unnamed part 004 lines 146-153): clears the store
through authService.logout, drops the authenticated flag and pushes the
login route. -/
def useAuthLogout (s : SessionState) : SessionState :=
  { s with
    store := authServiceLogout s.store,
    isAuthenticated := false,
    route := some "/login" }

/-- The xiaomiLogout of the useXiaomi hook (unnamed part 003): on a
response reporting success it resets the vendor indicator and returns
normally; a response reporting failure, or a rejected call, throws
(second component true). -/
def xiaomiLogoutHook (vendorResult : Except Unit ApiResp) (s : SessionState) :
    SessionState × Bool :=
  match vendorResult with
  | Except.ok r =>
    if r.success then
      ({ s with
          xiaomiStatus := { logged_in := false, devices_count := none, user_id := none } },
        false)
    else (s, true)
  | Except.error _ => (s, true)

/-- handleLogout of MainLayout.tsx (lines 315-324): when the vendor
indicator reports logged in, the vendor logout is attempted and any throw
is caught and logged; the system logout then runs unconditionally. The
second component records whether the vendor logout was attempted. -/
def handleLogout (vendorResult : Except Unit ApiResp) (s : SessionState) :
    SessionState × Bool :=
  let attempted :=
    if s.xiaomiStatus.logged_in then ((xiaomiLogoutHook vendorResult s).1, true)
    else (s, false)
  (useAuthLogout attempted.1, attempted.2)

/-! ## Concrete fixtures used by closed theorems -/

/-- A session holding both tokens and a user record. -/
def st0 : SendState :=
  { store := { accessToken := some "t0", refreshToken := some "r0", user := some "u0" },
    refreshCalls := 0, redirectedToLogin := false, retriedSends := [] }

/-- A 401 error on a request that has not been retried. -/
def e0 : HttpError :=
  { status := RespStatus.unauthorized,
    config := { retryFlag := false, authHeader := some "Bearer t0" } }

/-- Backend where the refresh succeeds with a rotated pair and the retried
request succeeds. -/
def envOk : HttpEnv :=
  { refreshResult :=
      Except.ok { success := true, access_token := some "a1", refresh_token := some "r1" },
    retryStatus := RespStatus.ok }

/-- Backend where the refresh succeeds but the retried request is rejected
with 401 again. -/
def env401 : HttpEnv :=
  { refreshResult :=
      Except.ok { success := true, access_token := some "a1", refresh_token := some "r1" },
    retryStatus := RespStatus.unauthorized }

/-- Backend where the refresh call itself is rejected. -/
def envErr : HttpEnv :=
  { refreshResult := Except.error (), retryStatus := RespStatus.ok }

/-- Backend where the refresh succeeds without returning a new refresh
token (the field is optional in TokenRefreshResponse). -/
def envNoRot : HttpEnv :=
  { refreshResult :=
      Except.ok { success := true, access_token := some "a1", refresh_token := none },
    retryStatus := RespStatus.ok }

/-- Backend where the refresh resolves but reports failure in its body. -/
def envFalse : HttpEnv :=
  { refreshResult :=
      Except.ok { success := false, access_token := none, refresh_token := none },
    retryStatus := RespStatus.ok }

/-- Devices A, B and X of the selection-repair scenarios. -/
def devA : DeviceInfo := { deviceID := "dev-A", name := none, deviceAlias := none, hardware := none }

def devB : DeviceInfo := { deviceID := "dev-B", name := none, deviceAlias := none, hardware := none }

def devX : DeviceInfo := { deviceID := "dev-X", name := none, deviceAlias := none, hardware := none }

/-- The provider state right after mount: logged-out vendor snapshot, no
devices, no selection, the initial empty hash, no fetch in flight. -/
def initialAppState : AppState :=
  { xiaomiStatus := { logged_in := false, devices_count := some 0, user_id := none },
    storedXiaomiStatus := none, devices := [], selectedDevice := none,
    storedSelectedDevice := none, devicesHash := none,
    isFetchingDevices := false, devicesLoading := false }

/-- A successful GET /devices response listing devices A and B. -/
def respAB : Except Unit DevicesResponse :=
  Except.ok { success := true, data := some [devA, devB] }

/-- State after one successful fetch of [A, B] followed by a selection of
device X (as a stale persisted snapshot re-selected through selectDevice). -/
def c4State : AppState :=
  selectDevice devX (fetchDevicesFinish respAB initialAppState).1

/-- The Living Room device of the selector examples. -/
def lrDevice : DeviceInfo :=
  { deviceID := "dev-123", name := some "Speaker-07", deviceAlias := some "Living Room",
    hardware := none }

/-- A device carrying only its raw id. -/
def idOnlyDevice : DeviceInfo :=
  { deviceID := "dev-123", name := none, deviceAlias := none, hardware := none }

/-- A device whose alias and name are absent and whose id is the empty
string. -/
def emptyIdDevice : DeviceInfo :=
  { deviceID := "", name := none, deviceAlias := none, hardware := none }

/-- A fully connected session about to log out. -/
def sess0 : SessionState :=
  { store := { accessToken := some "t0", refreshToken := some "r0", user := some "u0" },
    xiaomiStatus := { logged_in := true, devices_count := some 2, user_id := none },
    isAuthenticated := true, route := none }

/-- A provider state whose vendor snapshot already matches three devices. -/
def appThree : AppState :=
  { initialAppState with xiaomiStatus := { logged_in := true, devices_count := some 3, user_id := none } }

/-! ## Helper lemmas -/

theorem updateStatusByDevices_selectedDevice (n : Nat) (s : AppState) :
    (updateStatusByDevices n s).selectedDevice = s.selectedDevice := by
  by_cases h : s.xiaomiStatus.logged_in ≠ decide (0 < n) ∨ s.xiaomiStatus.devices_count ≠ some n <;>
    simp [updateStatusByDevices, h]

theorem updateStatusByDevices_devices (n : Nat) (s : AppState) :
    (updateStatusByDevices n s).devices = s.devices := by
  by_cases h : s.xiaomiStatus.logged_in ≠ decide (0 < n) ∨ s.xiaomiStatus.devices_count ≠ some n <;>
    simp [updateStatusByDevices, h]

theorem applyRequestInterceptor_retryFlag (st : Storage) (c : ReqConfig) :
    (applyRequestInterceptor st c).retryFlag = c.retryFlag := by
  unfold applyRequestInterceptor
  cases st.accessToken
  · rfl
  · dsimp only
    split <;> rfl

theorem truthy_some_of_ne (x : String) (h : x ≠ "") : truthy (some x) = true := by
  simp [truthy, h]

theorem respErrorHandler_retried (env : HttpEnv) (fuel : Nat) (s : SendState) (e : HttpError)
    (h : e.config.retryFlag = true) :
    respErrorHandler env fuel s e = (s, Outcome.rejected e) := by
  cases fuel with
  | zero => rfl
  | succ n =>
    unfold respErrorHandler
    simp [h]

theorem truthy_false_getD (o : Option String) (h : truthy o = false) : o.getD "" = "" := by
  cases o <;> simp_all [truthy]

theorem getD_empty_iff (o : Option String) : o.getD "" = "" ↔ truthy o = false := by
  cases o <;> simp [truthy]

theorem jsOrString_eq_empty (a b : String) : jsOrString a b = "" ↔ a = "" ∧ b = "" := by
  unfold jsOrString
  split <;> simp_all

theorem selectorOf_alias (d : DeviceInfo) (a : String) (hal : d.deviceAlias = some a)
    (ha : a ≠ "") : selectorOf d = a := by
  simp [selectorOf, hal, jsOrString, ha]

theorem selectorOf_name (d : DeviceInfo) (v : String) (hal : truthy d.deviceAlias = false)
    (hnm : d.name = some v) (hv : v ≠ "") : selectorOf d = v := by
  simp [selectorOf, truthy_false_getD _ hal, hnm, jsOrString, hv]

theorem selectorOf_id (d : DeviceInfo) (hal : truthy d.deviceAlias = false)
    (hnm : truthy d.name = false) : selectorOf d = d.deviceID := by
  simp [selectorOf, truthy_false_getD _ hal, truthy_false_getD _ hnm, jsOrString]

theorem selectorOf_eq_empty (d : DeviceInfo) :
    selectorOf d = "" ↔
      truthy d.deviceAlias = false ∧ truthy d.name = false ∧ d.deviceID = "" := by
  simp [selectorOf, jsOrString_eq_empty, getD_empty_iff]

/-! ## Claim theorems -/

/-- Claim C7: after a device fetch reporting n devices, the cached vendor
session state becomes logged_in = (n > 0) with devices_count = n (other
fields kept); when both fields already hold the derived values, no state
or localStorage write occurs at all; when they differ, the derived status
is also persisted. -/
theorem updateStatusByDevices_inference (n : Nat) (s : AppState) :
    (updateStatusByDevices n s).xiaomiStatus =
      { s.xiaomiStatus with logged_in := decide (0 < n), devices_count := some n } ∧
    (s.xiaomiStatus.logged_in ≠ decide (0 < n) ∨ s.xiaomiStatus.devices_count ≠ some n →
      (updateStatusByDevices n s).storedXiaomiStatus =
        some { s.xiaomiStatus with logged_in := decide (0 < n), devices_count := some n }) ∧
    (s.xiaomiStatus.logged_in = decide (0 < n) → s.xiaomiStatus.devices_count = some n →
      updateStatusByDevices n s = s) := by
  unfold updateStatusByDevices
  by_cases h1 : s.xiaomiStatus.logged_in = decide (0 < n) <;>
    by_cases h2 : s.xiaomiStatus.devices_count = some n <;>
    simp [h1, h2]
  rw [← h1, ← h2]

/-- Witness for C7: a fetch of three devices after a logged-out snapshot
yields logged_in with count three and persists it; when the snapshot
already holds those values the state is returned untouched. -/
theorem updateStatusByDevices_inference_witness :
    (updateStatusByDevices 3 initialAppState).xiaomiStatus =
      { logged_in := true, devices_count := some 3, user_id := none } ∧
    (updateStatusByDevices 3 initialAppState).storedXiaomiStatus =
      some { logged_in := true, devices_count := some 3, user_id := none } ∧
    updateStatusByDevices 3 appThree = appThree :=
  ⟨(updateStatusByDevices_inference 3 initialAppState).1,
   (updateStatusByDevices_inference 3 initialAppState).2.1 (by decide),
   (updateStatusByDevices_inference 3 appThree).2.2 (by decide) (by decide)⟩

/-- Claim C9: for every outcome of the vendor logout call (success,
reported failure, rejection), handleLogout leaves the credential store
without access token, refresh token or user record and drops the
authenticated flag; the vendor logout is attempted exactly when the vendor
indicator reports logged in. -/
theorem handleLogout_clears_session (vendorResult : Except Unit ApiResp) (s : SessionState) :
    (handleLogout vendorResult s).1.store.accessToken = none ∧
    (handleLogout vendorResult s).1.store.refreshToken = none ∧
    (handleLogout vendorResult s).1.store.user = none ∧
    (handleLogout vendorResult s).1.isAuthenticated = false ∧
    (handleLogout vendorResult s).2 = s.xiaomiStatus.logged_in := by
  unfold handleLogout useAuthLogout authServiceLogout
  by_cases h : s.xiaomiStatus.logged_in <;> simp [h]

/-- Witness for C9: the fully connected session whose vendor logout call
is rejected still ends with both tokens and the user record removed. -/
theorem handleLogout_clears_session_witness :
    (handleLogout (Except.error ()) sess0).1.store.accessToken = none ∧
    (handleLogout (Except.error ()) sess0).1.store.refreshToken = none ∧
    (handleLogout (Except.error ()) sess0).1.store.user = none ∧
    (handleLogout (Except.error ()) sess0).1.isAuthenticated = false ∧
    (handleLogout (Except.error ()) sess0).2 = sess0.xiaomiStatus.logged_in :=
  handleLogout_clears_session (Except.error ()) sess0

/-- Claim C3 counterexample: from the idle provider state, the first
invocation of fetchDevices passes the guard and issues the one network
call; a second invocation arriving while that fetch is in flight runs its
whole body - the early return of line 735 - and is therefore already
completed, with no state change and no network call, at a point where the
in-flight fetch has not completed (the in-flight ref is still set). This
refutes the claim that the concurrent invocation returns once the
in-flight fetch completes: it returns immediately instead. -/
theorem fetchDevices_concurrent_cex :
    (fetchDevicesStart initialAppState).2 = true ∧
    (fetchDevicesStart (fetchDevicesStart initialAppState).1).2 = false ∧
    (fetchDevicesStart (fetchDevicesStart initialAppState).1).1 =
      (fetchDevicesStart initialAppState).1 ∧
    (fetchDevicesStart initialAppState).1.isFetchingDevices = true := by
  decide

/-- Claim C3 as amended: if fetchDevices is invoked while a fetch is in
progress, the concurrent invocation performs no second network call and
returns immediately without waiting for the in-flight fetch; for any two
concurrent invocations exactly one network call occurs, and the completion
of the in-flight fetch clears the guard again. -/
theorem fetchDevices_dedup (s : AppState) (resp : Except Unit DevicesResponse)
    (h : s.isFetchingDevices = false) :
    (fetchDevicesStart s).2 = true ∧
    fetchDevicesStart (fetchDevicesStart s).1 = ((fetchDevicesStart s).1, false) ∧
    (fetchDevicesFinish resp (fetchDevicesStart s).1).1.isFetchingDevices = false := by
  refine ⟨by simp [fetchDevicesStart, h], by simp [fetchDevicesStart, h], ?_⟩
  simp [fetchDevicesFinish]

/-- Witness for the amended C3 at the idle provider state. -/
theorem fetchDevices_dedup_witness :
    (fetchDevicesStart initialAppState).2 = true ∧
    fetchDevicesStart (fetchDevicesStart initialAppState).1 =
      ((fetchDevicesStart initialAppState).1, false) ∧
    (fetchDevicesFinish respAB (fetchDevicesStart initialAppState).1).1.isFetchingDevices =
      false :=
  fetchDevices_dedup initialAppState respAB (by decide)

/-- Claim C4 counterexample: after a first successful fetch of [A, B]
(selection becomes A) and a subsequent selection of device X, a second
successful fetch returning the same list [A, B] leaves the selection at X,
a device absent from the fetched list, because the content hash is
unchanged and the repair of lines 747-757 is skipped. The claim that after
every successful fetch an absent selection is replaced by the first device
therefore fails. -/
theorem fetch_selection_repair_cex :
    (fetchDevicesFinish respAB c4State).2 = some [devA, devB] ∧
    (fetchDevicesFinish respAB c4State).1.selectedDevice = some devX ∧
    (∀ d ∈ [devA, devB], d.deviceID ≠ devX.deviceID) := by
  decide

/-- Claim C4 as amended: after a successful device fetch whose content
fingerprint differs from the stored one, the selection is repaired (an
empty list clears it; a selection whose deviceID is absent from a
non-empty list is replaced by the first device; a selection whose deviceID
is present is kept; with no previous selection the first device is
chosen) and the list is stored; when the fingerprint is unchanged, the
stored list and the selection are both left untouched. -/
theorem fetch_selection_repair (s : AppState) (r : DevicesResponse) (list : List DeviceInfo)
    (hs : r.success = true) (hd : r.data = some list) :
    (some (list.map projectDevice) ≠ s.devicesHash →
      ((list = [] → (fetchDevicesFinish (Except.ok r) s).1.selectedDevice = none) ∧
       (∀ p, s.selectedDevice = some p → (∀ d ∈ list, d.deviceID ≠ p.deviceID) → list ≠ [] →
          (fetchDevicesFinish (Except.ok r) s).1.selectedDevice = list.head?) ∧
       (∀ p d, s.selectedDevice = some p → d ∈ list → d.deviceID = p.deviceID →
          (fetchDevicesFinish (Except.ok r) s).1.selectedDevice = some p) ∧
       (s.selectedDevice = none → list ≠ [] →
          (fetchDevicesFinish (Except.ok r) s).1.selectedDevice = list.head?) ∧
       (fetchDevicesFinish (Except.ok r) s).1.devices = list)) ∧
    (some (list.map projectDevice) = s.devicesHash →
      (fetchDevicesFinish (Except.ok r) s).1.selectedDevice = s.selectedDevice ∧
      (fetchDevicesFinish (Except.ok r) s).1.devices = s.devices) := by
  by_cases hch : some (list.map projectDevice) = s.devicesHash
  · refine ⟨fun hcon => absurd hch hcon, fun _ => ?_⟩
    simp [fetchDevicesFinish, hd, hs, hch, updateStatusByDevices_selectedDevice,
      updateStatusByDevices_devices]
  · refine ⟨fun _ => ?_, fun hcon => absurd hcon hch⟩
    by_cases hemp : list = []
    · subst hemp
      simp only [List.map_nil] at hch
      simp [fetchDevicesFinish, hd, hs, hch, updateStatusByDevices_selectedDevice,
        updateStatusByDevices_devices]
    · refine ⟨fun h => absurd h hemp, ?_, ?_, ?_, ?_⟩
      · intro p hp habs _
        have hfind : list.find? (fun d => d.deviceID == p.deviceID) = none := by
          rw [List.find?_eq_none]
          intro d hdmem
          simpa using habs d hdmem
        simp [fetchDevicesFinish, hd, hs, hch, hemp, updateStatusByDevices_selectedDevice,
          updateStatusByDevices_devices, repairSelection, hp, hfind]
      · intro p d hp hdmem hid
        have hfind : (list.find? (fun d => d.deviceID == p.deviceID)).isSome = true := by
          rw [List.find?_isSome]
          exact ⟨d, hdmem, by simp [hid]⟩
        obtain ⟨d0, hd0⟩ := Option.isSome_iff_exists.mp hfind
        simp [fetchDevicesFinish, hd, hs, hch, hemp, updateStatusByDevices_selectedDevice,
          updateStatusByDevices_devices, repairSelection, hp, hd0]
      · intro hp _
        simp [fetchDevicesFinish, hd, hs, hch, hemp, updateStatusByDevices_selectedDevice,
          updateStatusByDevices_devices, repairSelection, hp]
      · simp [fetchDevicesFinish, hd, hs, hch, hemp, updateStatusByDevices_devices]

/-- Witness for the amended C4: the persisted selection X with a fresh
first fetch returning [A, B] (a changed fingerprint) becomes A. -/
theorem fetch_selection_repair_witness :
    (fetchDevicesFinish respAB
        { initialAppState with selectedDevice := some devX }).1.selectedDevice =
      some devA :=
  ((fetch_selection_repair { initialAppState with selectedDevice := some devX }
      { success := true, data := some [devA, devB] } [devA, devB] rfl rfl).1
    (by decide)).2.1 devX rfl (by decide) (by decide)

/-- Claim C8 counterexample: a device whose alias and name are absent and
whose raw id is the empty string is supplied explicitly, yet the selector
resolves to the empty string - so the selector is empty at an input where
a device was supplied, refuting that the empty string is returned exactly
when no device is resolvable (none supplied and no selection). -/
theorem getDeviceSelector_cex :
    getDeviceSelector (some emptyIdDevice) none = "" ∧
    (some emptyIdDevice : Option DeviceInfo) ≠ none := by
  decide

/-- Claim C8 as amended: the selector of the resolved target device is its
alias when that is present and non-empty, otherwise its name when that is
present and non-empty, otherwise its raw deviceID; the empty string is
returned exactly when no device is resolvable (none supplied and no
selection) or the resolved device has falsy alias and name and an empty
deviceID. -/
theorem getDeviceSelector_resolution (device selected : Option DeviceInfo) :
    (∀ d a, targetOf device selected = some d → d.deviceAlias = some a → a ≠ "" →
      getDeviceSelector device selected = a) ∧
    (∀ d nm, targetOf device selected = some d → truthy d.deviceAlias = false →
      d.name = some nm → nm ≠ "" → getDeviceSelector device selected = nm) ∧
    (∀ d, targetOf device selected = some d → truthy d.deviceAlias = false →
      truthy d.name = false → getDeviceSelector device selected = d.deviceID) ∧
    (getDeviceSelector device selected = "" ↔
      targetOf device selected = none ∨
      ∃ d, targetOf device selected = some d ∧ truthy d.deviceAlias = false ∧
        truthy d.name = false ∧ d.deviceID = "") := by
  cases htgt : targetOf device selected with
  | none =>
    refine ⟨?_, ?_, ?_, ?_⟩ <;>
      simp [getDeviceSelector, htgt]
  | some d =>
    have hres : getDeviceSelector device selected = selectorOf d := by
      simp [getDeviceSelector, htgt]
    refine ⟨?_, ?_, ?_, ?_⟩
    · intro d' a hsome hal ha
      obtain rfl : d = d' := Option.some.inj hsome
      rw [hres]
      exact selectorOf_alias d a hal ha
    · intro d' v hsome hal hnm hv
      obtain rfl : d = d' := Option.some.inj hsome
      rw [hres]
      exact selectorOf_name d v hal hnm hv
    · intro d' hsome hal hnm
      obtain rfl : d = d' := Option.some.inj hsome
      rw [hres]
      exact selectorOf_id d hal hnm
    · rw [hres]
      constructor
      · intro h
        exact Or.inr ⟨d, rfl, (selectorOf_eq_empty d).mp h⟩
      · rintro (h | ⟨d', hsome, h1, h2, h3⟩)
        · exact absurd h (by simp)
        · obtain rfl : d = d' := Option.some.inj hsome
          exact (selectorOf_eq_empty d).mpr ⟨h1, h2, h3⟩

/-- Witness for the amended C8: the Living Room device resolves to its
alias, the id-only device resolves to its raw id, and the selector with no
argument and no selection is empty. -/
theorem getDeviceSelector_resolution_witness :
    getDeviceSelector (some lrDevice) none = "Living Room" ∧
    getDeviceSelector (some idOnlyDevice) none = "dev-123" ∧
    (getDeviceSelector none none = "" ↔
      targetOf none none = none ∨
      ∃ d, targetOf none none = some d ∧ truthy d.deviceAlias = false ∧
        truthy d.name = false ∧ d.deviceID = "") :=
  ⟨(getDeviceSelector_resolution (some lrDevice) none).1 lrDevice "Living Room" rfl rfl
      (by decide),
   (getDeviceSelector_resolution (some idOnlyDevice) none).2.2.1 idOnlyDevice rfl (by decide)
      (by decide),
   (getDeviceSelector_resolution none none).2.2.2⟩

/-- Claim C1 counterexample: two concurrent requests are sent with the
same expired access token and each receives a 401; a valid cooperative
schedule runs their two error handlers one after the other. The
interceptor keeps no shared refresh-in-progress flag, so each handler
issues its own POST /auth/refresh: the refresh endpoint is invoked twice
during the one expiry event, not once, refuting the coalescing claim. -/
theorem refresh_not_coalesced_cex :
    (handle401 envOk st0 e0).2 = Outcome.resolved ∧
    (handle401 envOk (handle401 envOk st0 e0).1 e0).2 = Outcome.resolved ∧
    (handle401 envOk (handle401 envOk st0 e0).1 e0).1.refreshCalls = 2 := by
  decide

/-- Claim C1 as amended: there is no refresh coalescing; every request
that observes a 401, has not been retried, and finds a stored refresh
token issues exactly one refresh call of its own, so n concurrent 401
observers cause n refresh invocations during one expiry event. -/
theorem refresh_per_request (env : HttpEnv) (s : SendState) (e : HttpError)
    (hst : e.status = RespStatus.unauthorized) (hre : e.config.retryFlag = false)
    (hrt : truthy s.store.refreshToken = true) :
    (handle401 env s e).1.refreshCalls = s.refreshCalls + 1 := by
  unfold handle401 respErrorHandler
  cases henv : env.refreshResult with
  | error u => simp [hst, hre, hrt, henv]
  | ok resp =>
    by_cases hb : (resp.success && truthy resp.access_token) = true
    · cases hrs : env.retryStatus <;>
        simp [hst, hre, hrt, henv, hb, hrs, respErrorHandler_retried,
          applyRequestInterceptor_retryFlag]
    · simp [hst, hre, hrt, henv, hb]

/-- Witness for the amended C1 at the concrete expiry scenario. -/
theorem refresh_per_request_witness :
    (handle401 envOk st0 e0).1.refreshCalls = st0.refreshCalls + 1 :=
  refresh_per_request envOk st0 e0 rfl rfl (by decide)

/-- Claim C2: a 401 request not yet retried, with a stored refresh token
and a refresh that succeeds with a new access token, is re-sent exactly
once carrying the new token as its bearer credential; when that retry is
rejected with 401 again, the rejection is surfaced as-is, no further
retry is recorded, and no second refresh call is made. -/
theorem retry_once_with_new_token (env : HttpEnv) (s : SendState) (e : HttpError)
    (hst : e.status = RespStatus.unauthorized) (hre : e.config.retryFlag = false)
    (hrt : truthy s.store.refreshToken = true)
    (resp : RefreshResponse) (henv : env.refreshResult = Except.ok resp)
    (hsucc : resp.success = true) (a : String) (ha : resp.access_token = some a)
    (hane : a ≠ "") (h401 : env.retryStatus = RespStatus.unauthorized) :
    (handle401 env s e).1.retriedSends =
      s.retriedSends ++ [{ retryFlag := true, authHeader := some ("Bearer " ++ a) }] ∧
    (handle401 env s e).1.refreshCalls = s.refreshCalls + 1 ∧
    (handle401 env s e).1.store.accessToken = some a ∧
    (handle401 env s e).2 =
      Outcome.rejected
        { status := RespStatus.unauthorized,
          config := { retryFlag := true, authHeader := some ("Bearer " ++ a) } } := by
  have hta : truthy (some a) = true := truthy_some_of_ne a hane
  unfold handle401 respErrorHandler
  by_cases hr : truthy resp.refresh_token = true <;>
    simp [hst, hre, hrt, henv, hsucc, ha, hta, hane, h401, hr,
      applyRequestInterceptor, respErrorHandler_retried]

/-- Witness for C2: the concrete expiry scenario whose retry is rejected
with a second 401. -/
theorem retry_once_with_new_token_witness :
    (handle401 env401 st0 e0).1.retriedSends =
      st0.retriedSends ++ [{ retryFlag := true, authHeader := some ("Bearer " ++ "a1") }] ∧
    (handle401 env401 st0 e0).1.refreshCalls = st0.refreshCalls + 1 ∧
    (handle401 env401 st0 e0).1.store.accessToken = some "a1" ∧
    (handle401 env401 st0 e0).2 =
      Outcome.rejected
        { status := RespStatus.unauthorized,
          config := { retryFlag := true, authHeader := some ("Bearer " ++ "a1") } } :=
  retry_once_with_new_token env401 st0 e0 rfl rfl (by decide)
    { success := true, access_token := some "a1", refresh_token := some "r1" } rfl rfl
    "a1" rfl (by decide) rfl

/-- Claim C5: when the refresh call is rejected (invalid or expired
refresh token, network failure), the interceptor removes the access token,
the refresh token and the user record from the store, redirects to the
login page, and propagates the refresh failure to the caller. -/
theorem refresh_failure_teardown (env : HttpEnv) (s : SendState) (e : HttpError)
    (hst : e.status = RespStatus.unauthorized) (hre : e.config.retryFlag = false)
    (hrt : truthy s.store.refreshToken = true)
    (henv : env.refreshResult = Except.error ()) :
    (handle401 env s e).1.store =
      { accessToken := none, refreshToken := none, user := none } ∧
    (handle401 env s e).1.redirectedToLogin = true ∧
    (handle401 env s e).2 = Outcome.rejectedRefreshError := by
  unfold handle401 respErrorHandler
  simp [hst, hre, hrt, henv]

/-- Witness for C5 at the concrete rejected-refresh scenario. -/
theorem refresh_failure_teardown_witness :
    (handle401 envErr st0 e0).1.store =
      { accessToken := none, refreshToken := none, user := none } ∧
    (handle401 envErr st0 e0).1.redirectedToLogin = true ∧
    (handle401 envErr st0 e0).2 = Outcome.rejectedRefreshError :=
  refresh_failure_teardown envErr st0 e0 rfl rfl (by decide) rfl

/-- Claim C6 counterexample: a refresh that resolves successfully with a
new access token but without a refresh token (the field is optional in
the endpoint contract) makes the interceptor write the new access token
alone: afterwards the stored access token is the new one while the stored
refresh token is still the old one, so the pair was not written
atomically as both-or-neither. -/
theorem refresh_partial_persist_cex :
    envNoRot.refreshResult =
      Except.ok { success := true, access_token := some "a1", refresh_token := none } ∧
    st0.store.accessToken = some "t0" ∧
    st0.store.refreshToken = some "r0" ∧
    (handle401 envNoRot st0 e0).1.store.accessToken = some "a1" ∧
    (handle401 envNoRot st0 e0).1.store.refreshToken = some "r0" :=
  ⟨rfl, by decide⟩

/-- Claim C6 as amended: on a successful refresh the new access token is
persisted, the new refresh token is persisted together with it exactly
when the response carries a truthy one (otherwise the previous refresh
token is retained), and the user record is untouched. -/
theorem refresh_success_persists (env : HttpEnv) (s : SendState) (e : HttpError)
    (hst : e.status = RespStatus.unauthorized) (hre : e.config.retryFlag = false)
    (hrt : truthy s.store.refreshToken = true)
    (resp : RefreshResponse) (henv : env.refreshResult = Except.ok resp)
    (hsucc : resp.success = true) (a : String) (ha : resp.access_token = some a)
    (hane : a ≠ "") :
    (handle401 env s e).1.store.accessToken = some a ∧
    (handle401 env s e).1.store.refreshToken =
      (if truthy resp.refresh_token then resp.refresh_token else s.store.refreshToken) ∧
    (handle401 env s e).1.store.user = s.store.user := by
  have hta : truthy (some a) = true := truthy_some_of_ne a hane
  unfold handle401 respErrorHandler
  by_cases hr : truthy resp.refresh_token = true <;>
    cases hrs : env.retryStatus <;>
    simp [hst, hre, hrt, henv, hsucc, ha, hta, hane, hr, hrs,
      applyRequestInterceptor, respErrorHandler_retried]

/-- Witness for the amended C6 at the rotated-pair scenario. -/
theorem refresh_success_persists_witness :
    (handle401 envOk st0 e0).1.store.accessToken = some "a1" ∧
    (handle401 envOk st0 e0).1.store.refreshToken =
      (if truthy (some "r1") then some "r1" else st0.store.refreshToken) ∧
    (handle401 envOk st0 e0).1.store.user = st0.store.user :=
  refresh_success_persists envOk st0 e0 rfl rfl (by decide)
    { success := true, access_token := some "a1", refresh_token := some "r1" } rfl rfl
    "a1" rfl (by decide)

/-- Claim C10: when the refresh call resolves without throwing but its
body reports failure or carries no access token, the interceptor performs
no retry, leaves the stored tokens and the user record unchanged, does
not redirect, and rejects with the original 401 error. -/
theorem refresh_declined_no_retry (env : HttpEnv) (s : SendState) (e : HttpError)
    (hst : e.status = RespStatus.unauthorized) (hre : e.config.retryFlag = false)
    (hrt : truthy s.store.refreshToken = true)
    (resp : RefreshResponse) (henv : env.refreshResult = Except.ok resp)
    (hfail : (resp.success && truthy resp.access_token) = false) :
    (handle401 env s e).2 = Outcome.rejected e ∧
    (handle401 env s e).1.store = s.store ∧
    (handle401 env s e).1.redirectedToLogin = s.redirectedToLogin ∧
    (handle401 env s e).1.retriedSends = s.retriedSends ∧
    (handle401 env s e).1.refreshCalls = s.refreshCalls + 1 := by
  unfold handle401 respErrorHandler
  simp [hst, hre, hrt, henv, hfail]

/-- Witness for C10 at the scenario whose refresh body reports failure. -/
theorem refresh_declined_no_retry_witness :
    (handle401 envFalse st0 e0).2 = Outcome.rejected e0 ∧
    (handle401 envFalse st0 e0).1.store = st0.store ∧
    (handle401 envFalse st0 e0).1.redirectedToLogin = st0.redirectedToLogin ∧
    (handle401 envFalse st0 e0).1.retriedSends = st0.retriedSends ∧
    (handle401 envFalse st0 e0).1.refreshCalls = st0.refreshCalls + 1 :=
  refresh_declined_no_retry envFalse st0 e0 rfl rfl (by decide)
    { success := false, access_token := none, refresh_token := none } rfl rfl

end MiMusic
